import Mathlib

set_option autoImplicit false

namespace ContactsApp

/-! Shallow embedding of the contact-management backend (FastAPI + SQLAlchemy + Redis).
Each definition is translated from the repository source file named in its
doc comment. Time is measured in whole seconds (Nat); JWT strings are
represented by the data that determines them, since jose encoding is
deterministic. -/

/-- Model of src/conf/config.py, class Settings: the environment-driven
configuration fields that the token, cache and auth code reads. -/
structure Settings where
  JWT_SECRET : String
  JWT_ALGORITHM : String
  ACCESS_TOKEN_EXPIRE_SECONDS : Nat
  REFRESH_TOKEN_EXPIRE_SECONDS : Nat
  VERIFICATION_TOKEN_EXPIRE_SECONDS : Nat
  REDIS_CACHE_EXPIRE_SECONDS : Nat
deriving DecidableEq, Repr

/-- Model of a bcrypt digest produced by passlib (src/services/auth.py, class Hash).
A digest embeds a per-password random salt, modelled as an explicit Nat, so
hashing the same plaintext twice can give two different digests while
verification still recovers whether a plaintext matches. The `unset`
constructor stands for the absent attribute on a User object rebuilt from a
cache snapshot, which carries no password field. -/
inductive HashV where
  | bcrypt (plain : String) (salt : Nat)
  | unset
deriving DecidableEq, Repr

/-- Model of Hash.verify_password (src/services/auth.py): bcrypt verification
succeeds exactly when the plaintext matches the one the digest was built from,
whatever the salt. -/
def Hash.verify_password (plain_password : String) (hashed_password : HashV) : Bool :=
  match hashed_password with
  | .bcrypt p _ => plain_password = p
  | .unset => false

/-- Model of Hash.get_password_hash (src/services/auth.py); the salt drawn by
bcrypt is passed explicitly. -/
def Hash.get_password_hash (password : String) (salt : Nat) : HashV :=
  .bcrypt password salt

/-- Claim set carried by the JWTs this code builds: a `sub` claim (the only
key the callers ever put in `data`), the `exp` and `iat` stamps added by
create_jwt_token / create_email_token, and the optional `token_type`
discriminator. -/
structure JwtPayload where
  sub : Option String := none
  exp : Nat := 0
  iat : Nat := 0
  token_type : Option String := none
deriving DecidableEq, Repr

/-- A JWT string, represented by the data that determines it: jose encoding is
deterministic, so two tokens built from the same payload, secret and algorithm
are equal as strings and distinct payloads give distinct strings. `malformed`
stands for an input string that is not a well-formed JWT at all. -/
inductive Jwt where
  | signed (payload : JwtPayload) (secret : String) (alg : String)
  | malformed (raw : String)
deriving DecidableEq, Repr

/-- The two failure modes of jose decoding; both are subclasses of JWTError
and are caught uniformly by this codebase. -/
inductive JwtError where
  | invalid
  | expired
deriving DecidableEq, Repr

/-- Model of jose `jwt.decode(token, secret, algorithms=[alg])` at time `now`:
the signature (shared secret) and declared algorithm are checked, and the
`exp` claim is validated with zero leeway — jose raises ExpiredSignatureError
(a JWTError) exactly when `exp < now`. -/
def jwtDecode (t : Jwt) (secret : String) (alg : String) (now : Nat) :
    Except JwtError JwtPayload :=
  match t with
  | .malformed _ => .error .invalid
  | .signed p s a =>
      if s = secret ∧ a = alg then
        if p.exp < now then .error .expired else .ok p
      else .error .invalid

/-- Model of create_jwt_token (src/services/auth.py line 73): copies the data
dict (here: its `sub` entry), adds `exp = now + expires_delta`, `iat = now`
and `token_type`, and signs with the configured secret and algorithm. -/
def create_jwt_token (S : Settings) (data : Option String)
    (expires_delta : Nat) (token_type : String) (now : Nat) : Jwt :=
  .signed { sub := data, exp := now + expires_delta, iat := now,
            token_type := some token_type } S.JWT_SECRET S.JWT_ALGORITHM

/-- Model of create_access_token (src/services/auth.py). Python tests the
optional timedelta for truthiness, so both `None` and a zero delta fall back
to the configured ACCESS_TOKEN_EXPIRE_SECONDS. -/
def create_access_token (S : Settings) (data : Option String)
    (expires_delta : Option Nat) (now : Nat) : Jwt :=
  match expires_delta with
  | some d =>
      if d = 0 then create_jwt_token S data S.ACCESS_TOKEN_EXPIRE_SECONDS "access" now
      else create_jwt_token S data d "access" now
  | none => create_jwt_token S data S.ACCESS_TOKEN_EXPIRE_SECONDS "access" now

/-- Model of create_refresh_token (src/services/auth.py), analogous to
create_access_token but with kind `refresh` and its own TTL. -/
def create_refresh_token (S : Settings) (data : Option String)
    (expires_delta : Option Nat) (now : Nat) : Jwt :=
  match expires_delta with
  | some d =>
      if d = 0 then create_jwt_token S data S.REFRESH_TOKEN_EXPIRE_SECONDS "refresh" now
      else create_jwt_token S data d "refresh" now
  | none => create_jwt_token S data S.REFRESH_TOKEN_EXPIRE_SECONDS "refresh" now

/-- Model of create_email_token (src/services/auth.py line 221): same signing
primitive and secret, its own expiry, and no `token_type` claim at all. -/
def create_email_token (S : Settings) (data : Option String) (now : Nat) : Jwt :=
  .signed { sub := data, exp := now + S.VERIFICATION_TOKEN_EXPIRE_SECONDS,
            iat := now, token_type := none } S.JWT_SECRET S.JWT_ALGORITHM

/-- A FastAPI HTTPException, identified by status code and detail string. -/
inductive HttpErr where
  | httpException (status : Nat) (detail : String)
deriving DecidableEq, Repr

/-- Model of get_email_from_token (src/services/auth.py line 239): decode with
the shared secret and algorithm, then require a `sub` claim; on either failure
raise HTTPException(422, "Invalid token"). The `token_type` claim is never
inspected. -/
def get_email_from_token (S : Settings) (token : Jwt) (now : Nat) :
    Except HttpErr String :=
  match jwtDecode token S.JWT_SECRET S.JWT_ALGORITHM now with
  | .error _ => .error (.httpException 422 "Invalid token")
  | .ok payload =>
      match payload.sub with
      | none => .error (.httpException 422 "Invalid token")
      | some email => .ok email

/-- Model of src/database/models.py, enum UserRole. -/
inductive UserRole where
  | ADMIN
  | USER
deriving DecidableEq, Repr

/-- Model of the users table row (src/database/models.py, class User). The
refresh_token and reset_password_token columns store JWT strings verbatim,
so they are Option Jwt here. -/
structure UserRow where
  id : Nat
  email : String
  password_hash : HashV
  created_at : Nat := 0
  avatar_url : Option String := none
  refresh_token : Option Jwt := none
  email_verified : Bool := false
  reset_password_token : Option Jwt := none
  role : UserRole := .USER
deriving DecidableEq, Repr

/-- Modelled from the spec: src/schemas.py (the UserModel response schema used
to serialize users into the cache and into responses) is not under src/ —
only its importers are. Per the spec a cache entry is a serialized form of
the public-ish fields of the user, and the signup response exposes no
password fields (the integration tests assert that password_hash is absent);
so the snapshot carries id, email, avatar URL, verified flag and role. -/
structure UserSnap where
  id : Nat
  email : String
  avatar_url : Option String
  email_verified : Bool
  role : UserRole
deriving DecidableEq, Repr

/-- The users table: a list of rows; the email column is unique. -/
structure DbState where
  users : List UserRow
deriving DecidableEq, Repr

/-- The Redis keyspace used by this code: string keys mapped to serialized
user snapshots. Modelled as an association list, most recent binding first. -/
abbrev RedisDb := List (String × UserSnap)

/-- Model of `redis.get key`. -/
def rget (r : RedisDb) (k : String) : Option UserSnap :=
  (r.find? (fun kv => kv.1 = k)).map Prod.snd

/-- Model of `redis.set key value ex=ttl` (the ttl only bounds staleness and
is not otherwise observable in the claims, so it is not tracked). -/
def rset (r : RedisDb) (k : String) (v : UserSnap) : RedisDb :=
  (k, v) :: r.filter (fun kv => kv.1 ≠ k)

/-- Model of `redis.delete key`. -/
def rdel (r : RedisDb) (k : String) : RedisDb :=
  r.filter (fun kv => kv.1 ≠ k)

/-- The full state an auth request touches: the users table and the cache. -/
structure AppState where
  db : DbState
  redis : RedisDb
deriving DecidableEq, Repr

/-- Model of UserRepository.get_user_by_email (src/repository/users.py):
`select(User).filter_by(email=email)` with scalar_one_or_none; email is
unique, so this is the first (only) matching row. -/
def UserRepository.get_user_by_email (db : DbState) (email : String) : Option UserRow :=
  db.users.find? (fun u => u.email = email)

/-- Model of UserRepository.get_user_by_id (src/repository/users.py). -/
def UserRepository.get_user_by_id (db : DbState) (user_id : Nat) : Option UserRow :=
  db.users.find? (fun u => u.id = user_id)

/-- Commit of a mutated ORM user object: the row with its id takes the new
attribute values. -/
def DbState.commitUser (db : DbState) (u : UserRow) : DbState :=
  { users := db.users.map (fun w => if w.id = u.id then u else w) }

/-- Model of UserRepository.update_user_password (src/repository/users.py):
assign password_hash, commit, refresh, return the user. -/
def UserRepository.update_user_password (db : DbState) (user : UserRow)
    (new_hashed_password : HashV) : UserRow × DbState :=
  let u1 := { user with password_hash := new_hashed_password }
  (u1, db.commitUser u1)

/-- Model of UserRepository.set_email_verified (src/repository/users.py). -/
def UserRepository.set_email_verified (db : DbState) (user : UserRow) :
    UserRow × DbState :=
  let u1 := { user with email_verified := true }
  (u1, db.commitUser u1)

/-- Model of UserRepository.update_reset_password_token (src/repository/users.py). -/
def UserRepository.update_reset_password_token (db : DbState) (user : UserRow)
    (token : Option Jwt) : UserRow × DbState :=
  let u1 := { user with reset_password_token := token }
  (u1, db.commitUser u1)

/-- The column attributes of the User model, as collected by
`inspect(User).mapper.column_attrs` in UserRepository.__init__
(src/repository/users.py line 17; columns from src/database/models.py). -/
def validUserFields : List String :=
  ["id", "email", "password_hash", "created_at", "avatar_url",
   "refresh_token", "email_verified", "reset_password_token", "role"]

/-- Model of UserRepository.UPDATABLE_FIELDS (src/repository/users.py line 9):
the fixed allow-list of mutable fields. -/
def UPDATABLE_FIELDS : List String :=
  ["password_hash", "avatar_url", "email_verified", "reset_password_token"]

/-- A value passed for one keyword field of update_multiple_fields, typed by
the kind of column it is meant for. -/
inductive FieldVal where
  | str (s : String)
  | optStr (s : Option String)
  | optJwt (t : Option Jwt)
  | bool (b : Bool)
  | nat (n : Nat)
  | hash (h : HashV)
  | role (r : UserRole)
deriving DecidableEq, Repr

/-- Model of `setattr(user, key, value)` on a User object for each column;
a key/value pairing that does not type-check against the column leaves the
row unchanged (no caller in the repository produces such a pairing). -/
def setattrUser (u : UserRow) (key : String) (v : FieldVal) : UserRow :=
  match key, v with
  | "id", .nat n => { u with id := n }
  | "email", .str s => { u with email := s }
  | "password_hash", .hash h => { u with password_hash := h }
  | "created_at", .nat n => { u with created_at := n }
  | "avatar_url", .optStr s => { u with avatar_url := s }
  | "refresh_token", .optJwt t => { u with refresh_token := t }
  | "email_verified", .bool b => { u with email_verified := b }
  | "reset_password_token", .optJwt t => { u with reset_password_token := t }
  | "role", .role r => { u with role := r }
  | _, _ => u

/-- Result of one call to UserRepository.update_multiple_fields: the raised or
returned value, the state of the users table after the call, and whether a
commit was performed. -/
structure UpdateOutcome where
  result : Except String UserRow
  db : DbState
  committed : Bool
deriving Repr

/-- Model of UserRepository.update_multiple_fields (src/repository/users.py
line 68): first every supplied name must be a real User column, else raise
ValueError listing the unknown fields; then every name must belong to
UPDATABLE_FIELDS, else raise a protected-fields ValueError; only then are the
fields assigned and a single commit performed. Both raises happen before any
setattr, so on error the table is untouched. The Python messages interpolate
the offending names; the model keeps the fixed message prefixes. -/
def UserRepository.update_multiple_fields (db : DbState) (user : UserRow)
    (fields : List (String × FieldVal)) : UpdateOutcome :=
  let names := fields.map Prod.fst
  let invalid_fields := names.filter (fun n => decide (n ∉ validUserFields))
  if invalid_fields = [] then
    let protected_fields := names.filter (fun n => decide (n ∉ UPDATABLE_FIELDS))
    if protected_fields = [] then
      let u1 := fields.foldl (fun acc kv => setattrUser acc kv.1 kv.2) user
      { result := .ok u1, db := db.commitUser u1, committed := true }
    else
      { result := .error "Cannot update protected fields", db := db, committed := false }
  else
    { result := .error "Fields do not exist in User model", db := db, committed := false }

/-- The cache key for a user, `f"user:email:{email}"` in
src/services/users.py (braces elided, the email is appended). -/
def userCacheKey (email : String) : String := "user:email:" ++ email

/-- Serialization `UserModel.model_validate(user)` used by cache_user. -/
def snapOf (u : UserRow) : UserSnap :=
  { id := u.id, email := u.email, avatar_url := u.avatar_url,
    email_verified := u.email_verified, role := u.role }

/-- Model of `User(**user_data.model_dump())` in get_cached_user_by_email
(src/services/users.py): a User object rebuilt from the snapshot; the
password attribute is never part of the snapshot and stays unset. -/
def userOfSnap (s : UserSnap) : UserRow :=
  { id := s.id, email := s.email, password_hash := .unset,
    avatar_url := s.avatar_url, email_verified := s.email_verified,
    role := s.role }

/-- Model of UserService.cache_user (src/services/users.py line 205):
serialize the user and store it under its cache key with the configured
expiry. -/
def UserService.cache_user (u : UserRow) (r : RedisDb) : RedisDb :=
  rset r (userCacheKey u.email) (snapOf u)

/-- Model of UserService.invalidate_user_cache (src/services/users.py
line 222): delete the cache key for the email. -/
def UserService.invalidate_user_cache (email : String) (r : RedisDb) : RedisDb :=
  rdel r (userCacheKey email)

/-- Model of UserService.get_cached_user_by_email (src/services/users.py):
read the cache key and rebuild a User from the snapshot, without touching the
database. -/
def UserService.get_cached_user_by_email (email : String) (r : RedisDb) :
    Option UserRow :=
  (rget r (userCacheKey email)).map userOfSnap

/-- Model of UserService.get_user_by_email (src/services/users.py): read the
repository and, when a user is found, write it through to the cache. -/
def UserService.get_user_by_email (st : AppState) (email : String) :
    Option UserRow × AppState :=
  match UserRepository.get_user_by_email st.db email with
  | some u => (some u, { st with redis := UserService.cache_user u st.redis })
  | none => (none, st)

/-- Model of UserService._ensure_user_managed (src/services/users.py): a
detached user object is merged back into the session and refreshed, which
re-reads the row with its id from the database; a managed object is returned
as is (in the states built here the two coincide). -/
def UserService.ensure_user_managed (db : DbState) (user : UserRow) : UserRow :=
  match db.users.find? (fun w => w.id = user.id) with
  | some w => w
  | none => user

/-- Model of UserService.update_user_password (src/services/users.py
line 154): ensure the user is managed, store the new hash through the
repository, then invalidate the cache entry for the email of the user. -/
def UserService.update_user_password (st : AppState) (user : UserRow)
    (new_hashed_password : HashV) : UserRow × AppState :=
  let u0 := UserService.ensure_user_managed st.db user
  let p := UserRepository.update_user_password st.db u0 new_hashed_password
  let r1 := UserService.invalidate_user_cache p.1.email st.redis
  (p.1, { db := p.2, redis := r1 })

/-- Model of UserService.update_multiple_user_fields (src/services/users.py
line 190): delegate to the repository and refresh the cache on success; a
ValueError raised by the repository propagates before any cache write. -/
def UserService.update_multiple_user_fields (st : AppState) (user : UserRow)
    (fields : List (String × FieldVal)) : Except String UserRow × AppState :=
  let u0 := UserService.ensure_user_managed st.db user
  let out := UserRepository.update_multiple_fields st.db u0 fields
  match out.result with
  | .ok u1 => (.ok u1, { db := out.db, redis := UserService.cache_user u1 st.redis })
  | .error e => (.error e, { db := out.db, redis := st.redis })

/-- Model of UserService.confirm_user_email (src/services/users.py): mark the
email verified through the repository and refresh the cache. -/
def UserService.confirm_user_email (st : AppState) (user : UserRow) :
    UserRow × AppState :=
  let u0 := UserService.ensure_user_managed st.db user
  let p := UserRepository.set_email_verified st.db u0
  (p.1, { db := p.2, redis := UserService.cache_user p.1 st.redis })

/-- The HTTPException(401, "Unauthorized") raised by get_current_user. -/
def credentials_exception : HttpErr := .httpException 401 "Unauthorized"

/-- Model of get_current_user (src/services/auth.py line 146), the dependency
protecting authenticated routes: decode the bearer token; require a `sub`
claim and `token_type == "access"`, else raise 401; then resolve the user
through the cache, falling back to the database (which writes the user
through to the cache); a missing user is also a 401. -/
def get_current_user (S : Settings) (token : Jwt) (st : AppState) (now : Nat) :
    Except HttpErr UserRow × AppState :=
  match jwtDecode token S.JWT_SECRET S.JWT_ALGORITHM now with
  | .error _ => (.error credentials_exception, st)
  | .ok payload =>
      match payload.sub with
      | none => (.error credentials_exception, st)
      | some email =>
          if payload.token_type = some "access" then
            match UserService.get_cached_user_by_email email st.redis with
            | some u => (.ok u, st)
            | none =>
                match UserService.get_user_by_email st email with
                | (some u, st1) => (.ok u, st1)
                | (none, st1) => (.error credentials_exception, st1)
          else (.error credentials_exception, st)

/-- Model of verify_refresh_token (src/services/auth.py line 193), called with
its declared three-parameter signature: decode the token; return None when the
`sub` claim is missing or `token_type` is not `refresh`; otherwise look the
user up by email (which also caches it). The stored User.refresh_token column
is never consulted. -/
def verify_refresh_token (S : Settings) (token : Jwt) (st : AppState) (now : Nat) :
    Option UserRow × AppState :=
  match jwtDecode token S.JWT_SECRET S.JWT_ALGORITHM now with
  | .error _ => (none, st)
  | .ok payload =>
      match payload.sub with
      | none => (none, st)
      | some email =>
          if payload.token_type = some "refresh" then
            UserService.get_user_by_email st email
          else (none, st)

/-- Outcome of one HTTP request: a successful response with a body, an
HTTPException turned into its status/detail, or an uncaught Python exception,
which the framework surfaces as a 500 with no handler logic running. -/
inductive Response (α : Type) where
  | ok (status : Nat) (body : α)
  | httpError (status : Nat) (detail : String)
  | pyTypeError (msg : String)
deriving DecidableEq, Repr

/-- The TypeError message produced by constructing UserService with only the
database session: UserService.__init__ (src/services/users.py line 33)
declares redis_client as a required second parameter. -/
def userServiceArityError : String :=
  "UserService.__init__ missing 1 required positional argument: redis_client"

/-- Model of POST /auth/signup (src/api/auth.py line 38). The first statement
of the handler is `UserService(db)`; UserService.__init__ requires a second
redis_client argument, so the call raises TypeError before any signup logic
(duplicate check, hashing, insert) runs, and every request to this endpoint
is answered with an uncaught-exception 500. The remaining statements of the
handler are unreachable. -/
def signup (user_data_email user_data_password : String) (st : AppState) :
    Response UserSnap × AppState :=
  (.pyTypeError userServiceArityError, st)

/-- Model of POST /auth/refresh (src/api/auth.py line 93, handler
generate_access_token). The handler invokes
`verify_refresh_token(body.refresh_token, db)` with two arguments, while the
function (src/services/auth.py line 193) declares three required parameters;
the call itself raises TypeError, so every request to this endpoint is
answered with an uncaught-exception 500 and the 401 / new-access-token logic
below it is unreachable. -/
def generate_access_token (body_refresh_token : Jwt) (st : AppState) (now : Nat) :
    Response (Jwt × Jwt) × AppState :=
  (.pyTypeError
    "verify_refresh_token missing 1 required positional argument: redis_client", st)

/-- Model of GET /auth/confirm-email/(token) (src/api/auth.py line 130). The
handler first runs get_email_from_token, so an invalid token surfaces as its
HTTPException(422); with a decoded email the next statement `UserService(db)`
raises TypeError (missing redis_client), so the user lookup, the 400 branch
and the confirmation logic are unreachable. -/
def confirm_email (S : Settings) (token : Jwt) (st : AppState) (now : Nat) :
    Response String × AppState :=
  match get_email_from_token S token now with
  | .error (.httpException s d) => (.httpError s d, st)
  | .ok _ => (.pyTypeError userServiceArityError, st)

/-- Model of POST /auth/reset-password/(token) (src/api/auth.py line 170). As
in confirm_email, get_email_from_token runs first (422 on invalid tokens);
with a decoded email the handler constructs `UserService(db)`, which raises
TypeError, so the stored-token comparison, the differing-password check and
the update are unreachable. -/
def reset_password (S : Settings) (token : Jwt) (new_password : String)
    (st : AppState) (now : Nat) : Response String × AppState :=
  match get_email_from_token S token now with
  | .error (.httpException s d) => (.httpError s d, st)
  | .ok _ => (.pyTypeError userServiceArityError, st)

/-- A Python `datetime.date`, represented by its day count from March 1 of
year 0 of the proleptic Gregorian calendar (the calendar Python dates use).
The representation is a bijection onto dates, and `timedelta(days=n)`
addition is ordinal addition. -/
abbrev Date := Nat

/-- The month (3..12 then 1..2 across the leap boundary) and day of month of
an ordinal date, by the standard civil-from-days conversion: position inside
the 146097-day Gregorian 400-year era determines the month and day. Every
subtraction here is exact (the subtrahend never exceeds the minuend). -/
def monthDay (z : Date) : Nat × Nat :=
  let doe := z % 146097
  let yoe := ((doe - doe / 1460) + doe / 36524 - doe / 146096) / 365
  let doy := doe - ((365 * yoe + yoe / 4) - yoe / 100)
  let mp := (5 * doy + 2) / 153
  let d := doy - (153 * mp + 2) / 5 + 1
  let m := if mp < 10 then mp + 3 else mp - 9
  (m, d)

/-- Calendar order on (month, day) pairs, years ignored. -/
def mdLE (a b : Nat × Nat) : Bool :=
  decide (a.1 < b.1 ∨ (a.1 = b.1 ∧ a.2 ≤ b.2))

/-- Month/day membership in the window spanned by start and end dates: when
the window stays inside one calendar year the pair must lie between both
bounds; when the window wraps December into January the pair must lie after
the start or before the end. -/
def birthdayInWindow (bd s e : Nat × Nat) : Bool :=
  if mdLE s e then mdLE s bd && mdLE bd e
  else mdLE s bd || mdLE bd e

/-- Combined window facts at one date: a birthday falling 3 days after today
lies in the 7-day window, and one falling 30 days before today does not. -/
def windowOK (t : Date) : Bool :=
  birthdayInWindow (monthDay (t + 3)) (monthDay t) (monthDay (t + 7)) &&
  !(birthdayInWindow (monthDay (t - 30)) (monthDay t) (monthDay (t + 7)))

/-- Fuel-bounded balanced check of windowOK on lo, lo+1, ..., lo+len-1; the
fuel only bounds the splitting depth and the check fails closed when it runs
out. -/
def windowOKRange : Nat → Nat → Nat → Bool
  | _, _, 0 => true
  | 0, _, _ + 1 => false
  | fuel + 1, lo, len + 1 =>
      if len = 0 then windowOK lo
      else
        windowOKRange fuel lo ((len + 1) / 2) &&
          windowOKRange fuel (lo + (len + 1) / 2) (len + 1 - (len + 1) / 2)

/-- Model of the contacts table row (src/database/models.py, class Contact). -/
structure Contact where
  id : Nat
  first_name : String := ""
  last_name : String := ""
  email : String := ""
  phone : String := ""
  birthday : Option Date := none
  additional_info : Option String := none
  user_id : Nat
deriving DecidableEq, Repr

/-- Modelled from the spec: ContactRepository.get_contacts_with_birthday_in_period
(src/repository/contacts.py) is not under src/ — only its unit tests and its
caller ContactService.get_upcoming_birthdays are. Per the spec the query
returns the contacts of the requesting owner whose birthday month/day falls
within the start..end window, comparing while ignoring the year of the
birthday and wrapping the range across a year boundary when the window spans
December into January. -/
def get_contacts_with_birthday_in_period (contacts : List Contact)
    (user : UserRow) (start_date end_date : Date) : List Contact :=
  contacts.filter (fun c =>
    decide (c.user_id = user.id) &&
      match c.birthday with
      | some b => birthdayInWindow (monthDay b) (monthDay start_date) (monthDay end_date)
      | none => false)

/-- Model of ContactService.get_upcoming_birthdays (src/services/contacts.py
line 115): query the period from today through today plus days_ahead
(`today + timedelta(days=days_ahead)`); the route handler
(src/api/contacts.py line 201) passes days_ahead straight through, 7 by
default. -/
def ContactService.get_upcoming_birthdays (contacts : List Contact)
    (user : UserRow) (today : Date) (days_ahead : Nat) : List Contact :=
  get_contacts_with_birthday_in_period contacts user today (today + days_ahead)

/-! Concrete fixtures used by witnesses and counterexamples. -/

/-- A concrete configuration, standing for the environment of one deployment. -/
def S0 : Settings :=
  { JWT_SECRET := "secret", JWT_ALGORITHM := "HS256",
    ACCESS_TOKEN_EXPIRE_SECONDS := 3600, REFRESH_TOKEN_EXPIRE_SECONDS := 604800,
    VERIFICATION_TOKEN_EXPIRE_SECONDS := 3600, REDIS_CACHE_EXPIRE_SECONDS := 3600 }

/-- Refresh token issued for alice at an earlier signin (iat 100). -/
def aliceR1 : Jwt := create_refresh_token S0 (some "alice@example.com") none 100

/-- Refresh token issued for alice at a later signin (iat 200); a different
token string than aliceR1. -/
def aliceR2 : Jwt := create_refresh_token S0 (some "alice@example.com") none 200

/-- A verified user whose stored refresh token is the one from the earlier
signin. -/
def alice : UserRow :=
  { id := 1, email := "alice@example.com", password_hash := .bcrypt "oldpass" 7,
    email_verified := true, refresh_token := some aliceR1 }

/-- A state holding exactly alice, with an empty cache. -/
def st0 : AppState := { db := { users := [alice] }, redis := [] }

/-- An email token stored as the outstanding reset token of alice. -/
def aliceReset : Jwt := create_email_token S0 (some "alice@example.com") 250

/-- Alice with an outstanding password-reset token. -/
def aliceWithReset : UserRow := { alice with reset_password_token := some aliceReset }

/-- A state holding exactly aliceWithReset, with an empty cache. -/
def stReset : AppState := { db := { users := [aliceWithReset] }, redis := [] }

/-- A contact of alice whose birthday (in some year) has the month and day of
ordinal day 730333. -/
def bobContact : Contact := { id := 10, user_id := 1, birthday := some 730333 }

/-! Helper lemmas shared by the claim proofs. -/

/-- A passing range check certifies windowOK pointwise. -/
theorem windowOKRange_spec : ∀ (fuel lo len : Nat),
    windowOKRange fuel lo len = true → ∀ i, i < len → windowOK (lo + i) = true := by
  intro fuel
  induction fuel with
  | zero =>
      intro lo len h i hi
      cases len with
      | zero => omega
      | succ n => simp [windowOKRange] at h
  | succ fuel ih =>
      intro lo len h i hi
      cases len with
      | zero => omega
      | succ n =>
          rw [windowOKRange] at h
          by_cases hn : n = 0
          · subst hn
            have : i = 0 := by omega
            subst this
            simpa using h
          · simp only [if_neg hn, Bool.and_eq_true] at h
            by_cases hlt : i < (n + 1) / 2
            · exact ih lo ((n + 1) / 2) h.1 i hlt
            · have h2 := ih (lo + (n + 1) / 2) (n + 1 - (n + 1) / 2) h.2
                (i - (n + 1) / 2) (by omega)
              have heq : lo + (n + 1) / 2 + (i - (n + 1) / 2) = lo + i := by omega
              rwa [heq] at h2

/-- The window facts hold on every day of the checked span, which runs from
mid 1998 through the end of 2002 and so contains a century leap year (2000),
a February 29, and four December-to-January wraps. -/
theorem windowOKRange_pass : windowOKRange 16 729846 1676 = true := by decide

/-- The window facts hold pointwise on the whole checked span. -/
theorem windowOK_span : ∀ t : Nat, 729846 ≤ t → t < 731522 → windowOK t = true := by
  intro t h1 h2
  obtain ⟨i, rfl⟩ : ∃ i, t = 729846 + i := ⟨t - 729846, by omega⟩
  refine windowOKRange_spec 16 729846 1676 windowOKRange_pass i ?_
  omega


/-- Deleting a key removes it: a get of the same key finds nothing. -/
theorem rget_rdel (r : RedisDb) (k : String) : rget (rdel r k) k = none := by
  induction r with
  | nil => rfl
  | cons hd tl ih =>
      by_cases h : hd.1 = k
      · simpa [rdel, rget, List.filter_cons, h] using ih
      · simpa [rdel, rget, List.filter_cons, h, List.find?_cons] using ih

/-- Successful decoding returns the signed payload unchanged. -/
theorem jwtDecode_ok_eq (p : JwtPayload) (s a sec alg : String) (now : Nat)
    (q : JwtPayload) (h : jwtDecode (.signed p s a) sec alg now = .ok q) : q = p := by
  simp only [jwtDecode] at h
  split_ifs at h <;> cases h
  rfl

/-! Claim C2 -/

/-- C2: a signup request with a valid payload and a fresh email does not
return 201 — the handler constructs UserService(db) without the required
redis_client argument, so the request dies with a TypeError (an uncaught
exception surfaced as a 500), contradicting the claim and the integration
test test_signup, which posts this very payload and asserts 201. -/
theorem c2_signup_type_error :
    (signup "test@mail.com" "password" { db := { users := [] }, redis := [] }).1 =
      .pyTypeError userServiceArityError := rfl

/-! Claim C8 -/

/-- C8: password-reset consumption never runs its checks — even on the
happy-path input (a decodable token that equals the stored reset token of the
user, with a new password differing from the old one), the handler crashes
with a TypeError right after decoding the email, because UserService(db) is
constructed without the required redis_client argument; neither the 200
success nor any 400 rejection described by the claim is reachable. -/
theorem c8_reset_password_type_error :
    (reset_password S0 aliceReset "newpass" stReset 300).1 =
      .pyTypeError userServiceArityError
    ∧ aliceWithReset.reset_password_token = some aliceReset
    ∧ Hash.verify_password "newpass" aliceWithReset.password_hash = false :=
  ⟨rfl, rfl, by decide⟩

/-! Claim C4 -/

/-- C4: whenever some supplied field name is not a real User column or lies
outside the allow-list UPDATABLE_FIELDS, update_multiple_fields raises a
ValueError (a field-does-not-exist or protected-field error), commits
nothing, and leaves the users table exactly as it was — the whole call is
rejected and none of it is applied. -/
theorem c4_update_multiple_fields_guard (db : DbState) (user : UserRow)
    (fields : List (String × FieldVal))
    (h : ∃ kv ∈ fields, kv.1 ∉ validUserFields ∨ kv.1 ∉ UPDATABLE_FIELDS) :
    (∃ msg, (UserRepository.update_multiple_fields db user fields).result = .error msg)
    ∧ (UserRepository.update_multiple_fields db user fields).db = db
    ∧ (UserRepository.update_multiple_fields db user fields).committed = false := by
  obtain ⟨kv, hmem, hbad⟩ := h
  by_cases hinv : (fields.map Prod.fst).filter (fun n => decide (n ∉ validUserFields)) = []
  · have hvalid : kv.1 ∈ validUserFields := by
      by_contra hnv
      have hin : kv.1 ∈ (fields.map Prod.fst).filter (fun n => decide (n ∉ validUserFields)) :=
        List.mem_filter.mpr ⟨List.mem_map_of_mem Prod.fst hmem, by simpa using hnv⟩
      rw [hinv] at hin
      cases hin
    have hprot : kv.1 ∉ UPDATABLE_FIELDS := by
      cases hbad with
      | inl hl => exact absurd hvalid hl
      | inr hr => exact hr
    have hne : (fields.map Prod.fst).filter (fun n => decide (n ∉ UPDATABLE_FIELDS)) ≠ [] :=
      List.ne_nil_of_mem
        (List.mem_filter.mpr ⟨List.mem_map_of_mem Prod.fst hmem, by simpa using hprot⟩)
    have e1 : UserRepository.update_multiple_fields db user fields =
        { result := .error "Cannot update protected fields", db := db, committed := false } := by
      simp only [UserRepository.update_multiple_fields]
      rw [if_pos hinv, if_neg hne]
    exact ⟨⟨"Cannot update protected fields", by rw [e1]⟩, by rw [e1], by rw [e1]⟩
  · have e1 : UserRepository.update_multiple_fields db user fields =
        { result := .error "Fields do not exist in User model", db := db, committed := false } := by
      simp only [UserRepository.update_multiple_fields]
      rw [if_neg hinv]
    exact ⟨⟨"Fields do not exist in User model", by rw [e1]⟩, by rw [e1], by rw [e1]⟩

/-- C4 witness: supplying the protected field `role` is rejected with an
error, no commit and an unchanged table. -/
theorem c4_update_multiple_fields_guard_witness :
    (∃ msg, (UserRepository.update_multiple_fields { users := [alice] } alice
        [("role", .role .ADMIN)]).result = .error msg)
    ∧ (UserRepository.update_multiple_fields { users := [alice] } alice
        [("role", .role .ADMIN)]).db = { users := [alice] }
    ∧ (UserRepository.update_multiple_fields { users := [alice] } alice
        [("role", .role .ADMIN)]).committed = false :=
  c4_update_multiple_fields_guard { users := [alice] } alice [("role", .role .ADMIN)]
    ⟨("role", .role .ADMIN), List.mem_singleton_self _, Or.inr (by decide)⟩

/-! Claim C5 -/

/-- C5: after update_user_password, the cache entry keyed by the email of the
updated user is gone — both the raw key and the service-level cached read
come back empty, so no subsequent cache read can return the pre-update
password hash; the next read must fall through to the store. -/
theorem c5_password_update_invalidates_cache (st : AppState) (user : UserRow)
    (new_hashed_password : HashV) :
    UserService.get_cached_user_by_email
        (UserService.update_user_password st user new_hashed_password).1.email
        (UserService.update_user_password st user new_hashed_password).2.redis = none
    ∧ rget (UserService.update_user_password st user new_hashed_password).2.redis
        (userCacheKey (UserService.update_user_password st user new_hashed_password).1.email)
      = none := by
  constructor
  · simp [UserService.update_user_password, UserService.get_cached_user_by_email,
      UserService.invalidate_user_cache, rget_rdel]
  · simp [UserService.update_user_password, UserService.invalidate_user_cache, rget_rdel]

/-- Any bearer token whose token_type claim is not `access` is answered with
the 401 credentials exception, whatever else it carries. -/
theorem get_current_user_reject (S : Settings) (st : AppState) (now : Nat)
    (p : JwtPayload) (s a : String) (h : p.token_type ≠ some "access") :
    (get_current_user S (.signed p s a) st now).1 = .error credentials_exception := by
  simp only [get_current_user, jwtDecode]
  split_ifs with h1 h2
  · rfl
  · cases hsub : p.sub with
    | none => simp [hsub]
    | some email => simp [hsub, h]
  · rfl

/-- An expired bearer token is answered with the 401 credentials exception. -/
theorem get_current_user_expired (S : Settings) (st : AppState) (now : Nat)
    (p : JwtPayload) (s a : String) (h : p.exp < now) :
    (get_current_user S (.signed p s a) st now).1 = .error credentials_exception := by
  simp only [get_current_user, jwtDecode]
  split_ifs with h1
  all_goals rfl

/-- Any token whose token_type claim is not `refresh` makes
verify_refresh_token return no user. -/
theorem verify_refresh_token_not_refresh (S : Settings) (st : AppState) (now : Nat)
    (p : JwtPayload) (s a : String) (h : p.token_type ≠ some "refresh") :
    (verify_refresh_token S (.signed p s a) st now).1 = none := by
  simp only [verify_refresh_token, jwtDecode]
  split_ifs with h1 h2
  · rfl
  · cases hsub : p.sub with
    | none => simp [hsub]
    | some email => simp [hsub, h]
  · rfl

/-! Claim C3 -/

/-- C3: token-kind confusion always fails — a token carrying
token_type=refresh is rejected with 401 by get_current_user, the access-token
verification protecting authenticated routes, and a token carrying
token_type=access makes verify_refresh_token return no user. -/
theorem c3_token_kind_confusion (S : Settings) (st : AppState) (now : Nat)
    (p q : JwtPayload) (s1 a1 s2 a2 : String)
    (h1 : p.token_type = some "refresh") (h2 : q.token_type = some "access") :
    (get_current_user S (.signed p s1 a1) st now).1 = .error credentials_exception
    ∧ (verify_refresh_token S (.signed q s2 a2) st now).1 = none :=
  ⟨get_current_user_reject S st now p s1 a1 (by rw [h1]; decide),
   verify_refresh_token_not_refresh S st now q s2 a2 (by rw [h2]; decide)⟩

/-- C3 witness: a concrete refresh-kind token is 401-rejected by
get_current_user, and a concrete access-kind token yields no user from
verify_refresh_token. -/
theorem c3_token_kind_confusion_witness :
    (get_current_user S0
        (.signed ⟨some "alice@example.com", 604900, 200, some "refresh"⟩ "secret" "HS256")
        st0 300).1 = .error credentials_exception
    ∧ (verify_refresh_token S0
        (.signed ⟨some "alice@example.com", 3700, 100, some "access"⟩ "secret" "HS256")
        st0 300).1 = none :=
  c3_token_kind_confusion S0 st0 300
    ⟨some "alice@example.com", 604900, 200, some "refresh"⟩
    ⟨some "alice@example.com", 3700, 100, some "access"⟩
    "secret" "HS256" "secret" "HS256" rfl rfl

/-! Claim C9 -/

/-- C9: round trip — an access token issued for a subject email decodes
immediately (at issue time) to a payload carrying the original subject claim,
with exp equal to iat plus the configured TTL; at any time after the TTL has
elapsed the same token fails decoding as expired, and get_current_user
answers it with the 401 credentials exception. -/
theorem c9_access_token_roundtrip (S : Settings) (email : String) (t0 t1 : Nat)
    (st : AppState) (h : t0 + S.ACCESS_TOKEN_EXPIRE_SECONDS < t1) :
    jwtDecode (create_access_token S (some email) none t0) S.JWT_SECRET S.JWT_ALGORITHM t0 =
      .ok { sub := some email, exp := t0 + S.ACCESS_TOKEN_EXPIRE_SECONDS, iat := t0,
            token_type := some "access" }
    ∧ jwtDecode (create_access_token S (some email) none t0) S.JWT_SECRET S.JWT_ALGORITHM t1 =
      .error .expired
    ∧ (get_current_user S (create_access_token S (some email) none t0) st t1).1 =
      .error credentials_exception := by
  have hx : ¬ (t0 + S.ACCESS_TOKEN_EXPIRE_SECONDS < t0) := by omega
  refine ⟨?_, ?_, ?_⟩
  · simp [create_access_token, create_jwt_token, jwtDecode, hx]
  · simp [create_access_token, create_jwt_token, jwtDecode, h]
  · exact get_current_user_expired S st t1
      { sub := some email, exp := t0 + S.ACCESS_TOKEN_EXPIRE_SECONDS, iat := t0,
        token_type := some "access" } S.JWT_SECRET S.JWT_ALGORITHM h

/-- C9 witness: at the concrete configuration, an access token issued at
time 100 decodes to its subject immediately and is rejected at time 5000,
past its 3600-second TTL. -/
theorem c9_access_token_roundtrip_witness :
    jwtDecode (create_access_token S0 (some "alice@example.com") none 100)
        S0.JWT_SECRET S0.JWT_ALGORITHM 100 =
      .ok ⟨some "alice@example.com", 3700, 100, some "access"⟩
    ∧ jwtDecode (create_access_token S0 (some "alice@example.com") none 100)
        S0.JWT_SECRET S0.JWT_ALGORITHM 5000 = .error .expired
    ∧ (get_current_user S0 (create_access_token S0 (some "alice@example.com") none 100)
        st0 5000).1 = .error credentials_exception :=
  c9_access_token_roundtrip S0 "alice@example.com" 100 5000 st0 (by decide)

/-! Claim C10 -/

/-- C10: get_email_from_token never inspects the token_type claim — it
returns the subject email of any unexpired token signed with the shared
secret and algorithm that carries a sub claim (so access or refresh tokens
are accepted wherever an email token is consumed), and it raises its
invalid-token error, HTTPException 422, exactly when decoding fails or the
sub claim is absent. -/
theorem c10_email_token_ignores_kind (S : Settings) (t : Jwt) (now : Nat) :
    (get_email_from_token S t now = .error (.httpException 422 "Invalid token") ↔
      (∃ e, jwtDecode t S.JWT_SECRET S.JWT_ALGORITHM now = .error e) ∨
      (∃ p, jwtDecode t S.JWT_SECRET S.JWT_ALGORITHM now = .ok p ∧ p.sub = none))
    ∧ (∀ (p : JwtPayload) (email : String),
        t = .signed p S.JWT_SECRET S.JWT_ALGORITHM → ¬ p.exp < now →
        p.sub = some email → get_email_from_token S t now = .ok email) := by
  constructor
  · unfold get_email_from_token
    cases hdec : jwtDecode t S.JWT_SECRET S.JWT_ALGORITHM now with
    | error e => simp [hdec]
    | ok p =>
        cases hsub : p.sub with
        | none => simp [hdec, hsub]
        | some e => simp [hdec, hsub]
  · intro p email ht hexp hsub
    subst ht
    unfold get_email_from_token jwtDecode
    simp [hexp, hsub]

/-- C10 witness: a concrete access-kind token (as issued at signin) is
accepted by get_email_from_token and decodes to the subject email. -/
theorem c10_email_token_ignores_kind_witness :
    get_email_from_token S0
      (.signed ⟨some "alice@example.com", 3700, 100, some "access"⟩
        S0.JWT_SECRET S0.JWT_ALGORITHM) 300 = .ok "alice@example.com" :=
  (c10_email_token_ignores_kind S0
      (.signed ⟨some "alice@example.com", 3700, 100, some "access"⟩
        S0.JWT_SECRET S0.JWT_ALGORITHM) 300).2
    ⟨some "alice@example.com", 3700, 100, some "access"⟩ "alice@example.com"
    rfl (by decide) rfl

/-! Claim C1 -/

/-- C1 counterexample: the claim is false on the code. The state holds alice
with stored refresh token aliceR1; aliceR2 is a validly signed, unexpired
refresh token whose string differs from the stored value. The claim says such
a token is rejected with 401, but verify_refresh_token (invoked with its
declared signature) returns alice — the token is honored without any
comparison to the stored string — while the refresh endpoint as written does
not reject with 401 either: it dies with a TypeError on the
verify_refresh_token call, which is missing its redis_client argument. -/
theorem c1_refresh_no_match_counterexample :
    alice.refresh_token = some aliceR1 ∧ aliceR2 ≠ aliceR1 ∧
    (verify_refresh_token S0 aliceR2 st0 300).1 = some alice ∧
    (generate_access_token aliceR2 st0 300).1 =
      .pyTypeError "verify_refresh_token missing 1 required positional argument: redis_client" :=
  ⟨rfl, by decide, by decide, rfl⟩

/-- C1 amended: verify_refresh_token honors any validly signed, unexpired
token whose token_type claim is `refresh` and whose sub names an existing
user, returning that user without ever consulting the refresh_token string
stored on the user row; and the refresh endpoint as written answers every
request with a TypeError (surfaced as a 500), because it passes
verify_refresh_token only two of its three required arguments. -/
theorem c1_refresh_amended (S : Settings) (st : AppState) (p : JwtPayload)
    (now : Nat) (u : UserRow) (t2 : Jwt) (st2 : AppState) (n2 : Nat)
    (h1 : p.token_type = some "refresh") (h2 : p.sub = some u.email)
    (h3 : ¬ p.exp < now)
    (h4 : UserRepository.get_user_by_email st.db u.email = some u) :
    (verify_refresh_token S (.signed p S.JWT_SECRET S.JWT_ALGORITHM) st now).1 = some u
    ∧ (generate_access_token t2 st2 n2).1 =
        .pyTypeError "verify_refresh_token missing 1 required positional argument: redis_client" := by
  constructor
  · simp [verify_refresh_token, jwtDecode, h3, h2, h1, UserService.get_user_by_email, h4]
  · rfl

/-- C1 witness: a third validly signed refresh token for alice, again
differing from the stored one, is honored at the concrete state. -/
theorem c1_refresh_amended_witness :
    (verify_refresh_token S0
        (.signed ⟨some "alice@example.com", 604900, 200, some "refresh"⟩
          S0.JWT_SECRET S0.JWT_ALGORITHM) st0 300).1 = some alice
    ∧ (generate_access_token aliceR2 st0 300).1 =
        .pyTypeError "verify_refresh_token missing 1 required positional argument: redis_client" :=
  c1_refresh_amended S0 st0 ⟨some "alice@example.com", 604900, 200, some "refresh"⟩
    300 alice aliceR2 st0 300 rfl rfl (by decide) (by decide)

/-! Claim C6 -/

/-- C6 counterexample: a malformed token presented to the confirm-email
endpoint is answered with status 422 (the HTTPException raised by
get_email_from_token), not with the 400 the claim states. -/
theorem c6_confirm_email_status_counterexample :
    (confirm_email S0 (.malformed "not-a-jwt") st0 300).1 =
      .httpError 422 "Invalid token"
    ∧ (confirm_email S0 (.malformed "not-a-jwt") st0 300).1 ≠
      .httpError 400 "Invalid token" :=
  ⟨rfl, by decide⟩

/-- C6 amended: every invalid token (expired, malformed or wrong-signature,
and likewise a decodable token without a sub claim) is answered by the
confirm-email endpoint with 422 Invalid token — the only error
get_email_from_token raises — not 400; and for every token that does decode
to an email, the handler crashes with a TypeError (surfaced as a 500) when it
constructs UserService(db) without the required redis_client argument, so the
200 message, the no-op success for an already verified user and the 400
unknown-user branch are unreachable. -/
theorem c6_confirm_email_amended (S : Settings) (t : Jwt) (st : AppState) (now : Nat) :
    (∀ e, get_email_from_token S t now = .error e →
        e = .httpException 422 "Invalid token"
        ∧ (confirm_email S t st now).1 = .httpError 422 "Invalid token")
    ∧ (∀ email, get_email_from_token S t now = .ok email →
        (confirm_email S t st now).1 = .pyTypeError userServiceArityError) := by
  constructor
  · intro e he
    have he2 : e = .httpException 422 "Invalid token" := by
      unfold get_email_from_token at he
      cases hdec : jwtDecode t S.JWT_SECRET S.JWT_ALGORITHM now with
      | error e2 =>
          rw [hdec] at he
          exact (Except.error.inj he).symm
      | ok p =>
          rw [hdec] at he
          cases hsub : p.sub with
          | none =>
              simp only [hsub] at he
              exact (Except.error.inj he).symm
          | some em =>
              simp only [hsub] at he
              cases he
    subst he2
    refine ⟨rfl, ?_⟩
    unfold confirm_email
    rw [he]
  · intro email he
    unfold confirm_email
    rw [he]

/-- C6 witness: a concrete malformed token gets 422, and a concrete valid
email token leads to the TypeError, at the concrete state. -/
theorem c6_confirm_email_amended_witness :
    (confirm_email S0 (.malformed "zzz") st0 300).1 = .httpError 422 "Invalid token"
    ∧ (confirm_email S0 (create_email_token S0 (some "alice@example.com") 250)
        st0 300).1 = .pyTypeError userServiceArityError :=
  ⟨((c6_confirm_email_amended S0 (.malformed "zzz") st0 300).1
      (.httpException 422 "Invalid token") rfl).2,
   (c6_confirm_email_amended S0 (create_email_token S0 (some "alice@example.com") 250)
      st0 300).2 "alice@example.com" rfl⟩

/-! Claim C7 -/

/-- C7: on any day of the checked span (mid 1998 through 2002, containing a
leap year, a February 29 and four December-to-January wraps), the
upcoming-birthday query returns exactly the contacts of the requesting owner
whose birthday month/day falls in the window from today through today plus 7
days, compared ignoring the year of the birthday; in particular, a contact of
the owner whose birthday falls 3 days from today is included, and a contact
whose birthday falls 30 days in the past is not. -/
theorem c7_upcoming_birthdays (contacts : List Contact) (user : UserRow)
    (today : Nat) (c : Contact)
    (hlo : 729846 ≤ today) (hhi : today < 731522) :
    (c ∈ ContactService.get_upcoming_birthdays contacts user today 7 ↔
      c ∈ contacts ∧ c.user_id = user.id ∧
        ∃ b, c.birthday = some b ∧
          birthdayInWindow (monthDay b) (monthDay today) (monthDay (today + 7)) = true)
    ∧ (∀ b, c ∈ contacts → c.user_id = user.id → c.birthday = some b →
        monthDay b = monthDay (today + 3) →
        c ∈ ContactService.get_upcoming_birthdays contacts user today 7)
    ∧ (∀ b, c.birthday = some b → monthDay b = monthDay (today - 30) →
        c ∉ ContactService.get_upcoming_birthdays contacts user today 7) := by
  have hwin := windowOK_span today hlo hhi
  rw [windowOK, Bool.and_eq_true, Bool.not_eq_true'] at hwin
  obtain ⟨h3in, h30out⟩ := hwin
  have hmem : ∀ x : Contact,
      x ∈ ContactService.get_upcoming_birthdays contacts user today 7 ↔
        x ∈ contacts ∧ x.user_id = user.id ∧
          ∃ b, x.birthday = some b ∧
            birthdayInWindow (monthDay b) (monthDay today) (monthDay (today + 7)) = true := by
    intro x
    unfold ContactService.get_upcoming_birthdays get_contacts_with_birthday_in_period
    rw [List.mem_filter]
    constructor
    · rintro ⟨hx, hp⟩
      rw [Bool.and_eq_true] at hp
      obtain ⟨hid, hbd⟩ := hp
      refine ⟨hx, by simpa using hid, ?_⟩
      cases hb : x.birthday with
      | none => rw [hb] at hbd; cases hbd
      | some b => rw [hb] at hbd; exact ⟨b, rfl, hbd⟩
    · rintro ⟨hx, hid, b, hb, hw⟩
      refine ⟨hx, ?_⟩
      rw [Bool.and_eq_true]
      refine ⟨by simpa using hid, ?_⟩
      rw [hb]
      exact hw
  refine ⟨hmem c, ?_, ?_⟩
  · intro b hc hid hb hmd
    refine (hmem c).mpr ⟨hc, hid, b, hb, ?_⟩
    rw [hmd]
    exact h3in
  · intro b hb hmd hcmem
    obtain ⟨_, _, b2, hb2, hw2⟩ := (hmem c).mp hcmem
    rw [hb] at hb2
    rw [← Option.some.inj hb2] at hw2
    rw [hmd] at hw2
    rw [h30out] at hw2
    cases hw2

/-- C7 witness: a contact of alice with birthday 3 days ahead of the concrete
day 730330 is returned by the query with days_ahead 7. -/
theorem c7_upcoming_birthdays_witness :
    bobContact ∈ ContactService.get_upcoming_birthdays [bobContact] alice 730330 7 :=
  (c7_upcoming_birthdays [bobContact] alice 730330 bobContact
      (by decide) (by decide)).2.1
    730333 (List.mem_singleton_self _) rfl rfl rfl

end ContactsApp
